import Mathlib

set_option linter.unusedVariables false

/-!
Verification development for the interactive-blog REST backend
(articles, nested comments, like tracking over a document store).

The document store is modelled as explicit lists of documents; each
Mongoose query or update helper used by the code is embedded as a pure
function over that state.  Instance methods that mutate a fetched
document distinguish the stored copy (in the database) from the
in-memory copy held by the request handler, so that read-modify-write
behaviour is visible.
-/

/-- Document of the `Article` collection (src/models/Article.js),
restricted to the fields the verified operations touch. -/
structure ArticleDoc where
  id : String
  slug : String
  title : String
  isPublished : Bool
  likesCount : Int
  viewsCount : Int
  commentsCount : Nat
  deriving Repr, DecidableEq

/-- Document of the `Comment` collection (src/models/Comment.js),
restricted to the fields the verified operations touch. -/
structure CommentDoc where
  id : String
  articleId : String
  userId : Option String
  author : String
  email : String
  content : String
  parentCommentId : Option String
  isApproved : Bool
  likesCount : Int
  deriving Repr, DecidableEq

/-- Document of the `User` collection (src/models/User.js); `password`
holds the stored bcrypt hash (`select: false` elsewhere is plumbing). -/
structure UserDoc where
  id : String
  name : String
  email : String
  password : String
  isActive : Bool
  deriving Repr, DecidableEq

/-- The document store: the three entity collections plus the `Like`
join collection, a `Like` row being a `(userId, articleId)` pair. -/
structure Store where
  articles : List ArticleDoc
  comments : List CommentDoc
  users : List UserDoc
  likes : List (String × String)
  deriving Repr, DecidableEq

namespace Article

/-- Mongoose query `Article.findOne({ slug, isPublished: true })`. -/
def findBySlugPublished (s : Store) (slug : String) : Option ArticleDoc :=
  s.articles.find? (fun a => a.slug == slug && a.isPublished)

/-- Mongoose query `Article.findOne({ slug })` (no publication filter). -/
def findBySlug (s : Store) (slug : String) : Option ArticleDoc :=
  s.articles.find? (fun a => a.slug == slug)

/-- Mongoose query `Article.findById(aid)`. -/
def findById (s : Store) (aid : String) : Option ArticleDoc :=
  s.articles.find? (fun a => a.id == aid)

/-- Mongoose `Article.findByIdAndUpdate(aid, ...)`: apply `f` to the
stored document whose `_id` is `aid` (at most one, `_id` being unique). -/
def updateById (articles : List ArticleDoc) (aid : String)
    (f : ArticleDoc → ArticleDoc) : List ArticleDoc :=
  articles.map (fun a => if a.id == aid then f a else a)

/-- Method `articleSchema.methods.incrementLikes`
(src/models/Article.js lines 145-155): a single
`findByIdAndUpdate(_id, { $inc: { likesCount: 1 } })`, an atomic add
against the stored value.  Argument `stored` is the counter in the
database, `mem` is `this.likesCount` in the fetched document; the
result is `(new stored value, new in-memory value)` where the in-memory
copy is refreshed from the update result. -/
def incrementLikesMem (stored mem : Int) : Int × Int :=
  let updated := stored + 1
  (updated, updated)

/-- Method `articleSchema.methods.decrementLikes`
(src/models/Article.js lines 158-170): computes
`decrementValue = this.likesCount > 0 ? -1 : 0` from the IN-MEMORY
copy, then issues the atomic `$inc` of that value against the stored
document. -/
def decrementLikesMem (stored mem : Int) : Int × Int :=
  let decrementValue : Int := if mem > 0 then -1 else 0
  let updated := stored + decrementValue
  (updated, updated)

end Article

namespace Comment

/-- Mongoose query `Comment.findById(cid)`. -/
def findById (s : Store) (cid : String) : Option CommentDoc :=
  s.comments.find? (fun c => c.id == cid)

/-- Count of `Comment.countDocuments({ articleId, isApproved: true })`,
run by the recount hooks in src/models/Comment.js. -/
def countApprovedFor (comments : List CommentDoc) (aid : String) : Nat :=
  (comments.filter (fun c => c.articleId == aid && c.isApproved)).length

/-- Body shared by the commentSchema post-save hook and the post
findOneAndDelete hook (src/models/Comment.js lines 185-218): recount
the approved comments of the article of the triggering comment and
overwrite `Article.commentsCount` with the result via
`Article.findByIdAndUpdate(doc.articleId, { $set: ... })`. -/
def postWriteHook (s : Store) (aid : String) : Store :=
  { s with articles :=
      (Article.updateById s.articles aid
        (fun a => { a with commentsCount := countApprovedFor s.comments aid })) }

/-- Persisting a brand-new comment document with `save()`; the post
save hook then runs, before the save promise resolves. -/
def saveNew (s : Store) (c : CommentDoc) : Store :=
  postWriteHook { s with comments := s.comments ++ [c] } c.articleId

/-- Persisting an already-stored comment with `save()`: the whole
in-memory document overwrites the stored one with the same `_id`, then
the post save hook runs. -/
def saveExisting (s : Store) (c : CommentDoc) : Store :=
  postWriteHook
    { s with comments := s.comments.map (fun o => if o.id == c.id then c else o) }
    c.articleId

/-- Method `commentSchema.methods.incrementLikes`
(src/models/Comment.js lines 159-162): `this.likesCount += 1` on the
in-memory copy followed by `this.save()` — a read-modify-write whose
written value ignores the stored counter.  Result is
`(value written to the store, new in-memory value)`. -/
def incrementLikesMem (stored mem : Int) : Int × Int :=
  let newMem := mem + 1
  (newMem, newMem)

/-- Method `commentSchema.methods.decrementLikes`
(src/models/Comment.js lines 165-170): decrement the in-memory copy
only when it is positive, then `this.save()` writes it back. -/
def decrementLikesMem (stored mem : Int) : Int × Int :=
  let newMem := if mem > 0 then mem - 1 else mem
  (newMem, newMem)

/-- Method `commentSchema.methods.incrementLikes` acting on the store:
the handler holds the fetched copy `c`; the saved document is `c` with
its counter bumped. -/
def incrementLikesStore (s : Store) (c : CommentDoc) : Store :=
  saveExisting s { c with likesCount := c.likesCount + 1 }

/-- Method `commentSchema.methods.decrementLikes` acting on the store. -/
def decrementLikesStore (s : Store) (c : CommentDoc) : Store :=
  saveExisting s
    (if c.likesCount > 0 then { c with likesCount := c.likesCount - 1 } else c)

/-- Method `commentSchema.methods.approve` (`isApproved := true`, then
`save()`). -/
def approveStore (s : Store) (c : CommentDoc) : Store :=
  saveExisting s { c with isApproved := true }

/-- Method `commentSchema.methods.disapprove` (`isApproved := false`,
then `save()`). -/
def disapproveStore (s : Store) (c : CommentDoc) : Store :=
  saveExisting s { c with isApproved := false }

/-- Mongoose `Comment.findByIdAndDelete(cid)`: remove the stored
document with that `_id` (if any); the post findOneAndDelete recount
hook fires only when a document was found. -/
def findByIdAndDelete (s : Store) (cid : String) : Store × Option CommentDoc :=
  match s.comments.find? (fun c => c.id == cid) with
  | none => (s, none)
  | some doc =>
      (postWriteHook
        { s with comments := s.comments.eraseP (fun c => c.id == cid) }
        doc.articleId, some doc)

end Comment

/-- The four comment-affecting writes named by the spec: create,
approve, disapprove, delete. -/
inductive CommentWrite where
  | create (c : CommentDoc)
  | approve (cid : String)
  | disapprove (cid : String)
  | delete (cid : String)
  deriving Repr, DecidableEq

/-- Run one comment-affecting write against the store, as the code
does (a moderation or deletion of a missing comment performs no write
and yields `none`).  On success, also return the `articleId` of the
comment the write touched. -/
def applyCommentWrite (s : Store) : CommentWrite → Option (Store × String)
  | CommentWrite.create c => some (Comment.saveNew s c, c.articleId)
  | CommentWrite.approve cid =>
      (Comment.findById s cid).map (fun doc => (Comment.approveStore s doc, doc.articleId))
  | CommentWrite.disapprove cid =>
      (Comment.findById s cid).map (fun doc => (Comment.disapproveStore s doc, doc.articleId))
  | CommentWrite.delete cid =>
      match Comment.findByIdAndDelete s cid with
      | (_, none) => none
      | (s2, some doc) => some (s2, doc.articleId)

/-! ## Like model (identity-bound ledger), src/unnamed/part_003 -/

/-- Outcome record of `likeSchema.statics.addLike`. -/
structure AddLikeResult where
  success : Bool
  message : String
  deriving Repr, DecidableEq

/-- Outcome record of `likeSchema.statics.toggleLike`. -/
structure ToggleLikeResult where
  success : Bool
  action : String
  liked : Bool
  message : String
  deriving Repr, DecidableEq

/-- Store-raised failure relevant here: the duplicate-key error
(`error.code === 11000`) from the unique `(userId, articleId)` index. -/
inductive MongoError where
  | duplicateKey
  deriving Repr, DecidableEq

namespace Like

/-- Static `likeSchema.statics.userLikedArticle`: `findOne({ userId,
articleId })` coerced to a boolean. -/
def userLikedArticle (likes : List (String × String)) (userId articleId : String) : Bool :=
  (likes.find? (fun p => p.1 == userId && p.2 == articleId)).isSome

/-- The store primitive `Like.create({ userId, articleId })`: the
unique compound index on `(userId, articleId)` raises the
duplicate-key error when the pair is already present, otherwise the
row is inserted. -/
def createRow (likes : List (String × String)) (u a : String) :
    Except MongoError (List (String × String)) :=
  if (u, a) ∈ likes then Except.error MongoError.duplicateKey
  else Except.ok ((u, a) :: likes)

/-- Static `likeSchema.statics.toggleLike` run sequentially (no
interleaved writer): `findOne` the pair; if present, `deleteOne` that
row and report `liked:false`; otherwise `create` the row and report
`liked:true`.  Returns the outcome and the new ledger. -/
def toggleLike (likes : List (String × String)) (u a : String) :
    ToggleLikeResult × List (String × String) :=
  if (u, a) ∈ likes then
    (⟨true, "removed", false, "Like eliminado exitosamente"⟩, likes.erase (u, a))
  else
    (⟨true, "added", true, "Like agregado exitosamente"⟩, (u, a) :: likes)

/-- Race window for a like creation: `checkLikes` is the ledger
snapshot the initial `findOne` reads; `createLikes` is the ledger at
the instant `create` executes (a concurrent toggle may have inserted
the pair in between). -/
structure LikeRace where
  checkLikes : List (String × String)
  createLikes : List (String × String)
  deriving Repr, DecidableEq

/-- Static `likeSchema.statics.addLike` (src/unnamed/part_003 lines
89-106) across the race window: existence check, then `create` inside
a try/catch that converts the duplicate-key error (`error.code ===
11000`) into the benign `success: false` outcome. -/
def addLike (env : LikeRace) (u a : String) : Except MongoError AddLikeResult :=
  if (u, a) ∈ env.checkLikes then
    Except.ok ⟨false, "Ya diste like a este artículo"⟩
  else
    match createRow env.createLikes u a with
    | Except.ok _ => Except.ok ⟨true, "Like agregado exitosamente"⟩
    | Except.error MongoError.duplicateKey =>
        Except.ok ⟨false, "Ya diste like a este artículo"⟩

/-- Static `likeSchema.statics.toggleLike` (src/unnamed/part_003 lines
130-153) across the race window: existence check, then either
`deleteOne` or a bare `create` with NO surrounding try/catch, so a
duplicate-key error propagates to the caller. -/
def toggleLikeRaced (env : LikeRace) (u a : String) : Except MongoError ToggleLikeResult :=
  if (u, a) ∈ env.checkLikes then
    Except.ok ⟨true, "removed", false, "Like eliminado exitosamente"⟩
  else
    (createRow env.createLikes u a).map
      (fun _ => ⟨true, "added", true, "Like agregado exitosamente"⟩)

end Like

/-! ## Controllers (src/controllers) -/

/-- JSON envelope of the like endpoints, reduced to the observable
fields the properties talk about. -/
structure LikeEndpointResponse where
  status : Nat
  success : Bool
  message : String
  likesCount : Option Int
  deriving Repr, DecidableEq

/-- JSON envelope of `GET /api/articles/:slug` reduced to the
observable fields the properties talk about. -/
structure ArticleDetailResponse where
  status : Nat
  success : Bool
  viewsCount : Option Int
  userLiked : Option Bool
  deriving Repr, DecidableEq

/-- Plain `{status, success, message}` envelope. -/
structure SimpleResponse where
  status : Nat
  success : Bool
  message : String
  deriving Repr, DecidableEq

/-- JS `String.prototype.trim()`: strip whitespace from both ends. -/
def jsTrim (s : String) : String :=
  String.mk ((s.data.dropWhile Char.isWhitespace).reverse.dropWhile Char.isWhitespace).reverse

/-- JS `String.prototype.toLowerCase()` over the character list. -/
def jsToLowerCase (s : String) : String :=
  String.mk (s.data.map Char.toLower)

/-- Test of the regex `/^[0-9a-fA-F]{24}$/` used by
`articleController.toggleLike` to detect an ObjectId-shaped slug. -/
def isObjectIdString (str : String) : Bool :=
  str.length == 24 &&
    str.toList.all (fun ch =>
      ch.isDigit || ('a' ≤ ch && ch ≤ 'f') || ('A' ≤ ch && ch ≤ 'F'))

namespace ArticleController

/-- Shared tail of `articleController.toggleLike` (lines 788-813): run
the action on the resolved article, reload the document for the
response, or answer 400 on an unknown action. -/
def applyLikeAction (s : Store) (article : ArticleDoc) (act : String) :
    LikeEndpointResponse × Store :=
  if act = "increment" then
    let s2 := { s with articles :=
      (Article.updateById s.articles article.id
        (fun a => { a with likesCount := a.likesCount + 1 })) }
    let reloaded := Article.findById s2 article.id
    (⟨200, true, "Like agregado exitosamente", reloaded.map (fun a => a.likesCount)⟩, s2)
  else if act = "decrement" then
    let decrementValue : Int := if article.likesCount > 0 then -1 else 0
    let s2 := { s with articles :=
      (Article.updateById s.articles article.id
        (fun a => { a with likesCount := a.likesCount + decrementValue })) }
    let reloaded := Article.findById s2 article.id
    (⟨200, true, "Like removido exitosamente", reloaded.map (fun a => a.likesCount)⟩, s2)
  else
    (⟨400, false, "Acción inválida. Use \"increment\" o \"decrement\"", none⟩, s)

/-- Controller `articleController.toggleLike` for
`POST /api/articles/:slug/like` (src/controllers/articleController.js
lines 714-823).  `action` is the request body field (absent body field
defaults to `"increment"` by destructuring); the slug is trimmed, an
ObjectId-shaped value goes through the compatibility fallback, and an
unresolved slug answers 404 without touching the store. -/
def toggleLike (s : Store) (slug : String) (action : Option String) :
    LikeEndpointResponse × Store :=
  let act := action.getD "increment"
  let normalizedSlug := jsTrim slug
  if isObjectIdString normalizedSlug then
    match Article.findById s normalizedSlug with
    | none => (⟨404, false, "Artículo no encontrado por ID", none⟩, s)
    | some article =>
        if article.slug ≠ "" then
          (⟨400, false, "Use el slug del artículo en lugar del ID", none⟩, s)
        else
          applyLikeAction s article act
  else
    match Article.findBySlugPublished s normalizedSlug with
    | some article => applyLikeAction s article act
    | none =>
        match Article.findBySlug s normalizedSlug with
        | some _ => (⟨404, false, "Artículo no encontrado o no publicado", none⟩, s)
        | none => (⟨404, false, "Artículo no encontrado", none⟩, s)

/-- Controller `articleController.getArticleBySlug` for
`GET /api/articles/:slug` (lines 224-270): resolve the published
article, `$inc` its `viewsCount` by 1 unconditionally, report the
incremented count, and compute `userLiked` from the `Like` ledger only
when `req.user` is present (false otherwise). -/
def getArticleBySlug (s : Store) (slug : String) (reqUser : Option UserDoc) :
    ArticleDetailResponse × Store :=
  match Article.findBySlugPublished s slug with
  | none => (⟨404, false, none, none⟩, s)
  | some article =>
      let s2 := { s with articles :=
        (Article.updateById s.articles article.id
          (fun a => { a with viewsCount := a.viewsCount + 1 })) }
      let userLiked :=
        match reqUser with
        | some u => Like.userLikedArticle s.likes u.id article.id
        | none => false
      (⟨200, true, some (article.viewsCount + 1), some userLiked⟩, s2)

end ArticleController

namespace CommentController

/-- Controller `commentController.toggleCommentLike` for
`POST /api/comments/:commentId/like` (src/controllers/
commentController.js lines 456-509): 404 when the comment is missing,
403 when it is not approved, otherwise run the (defaulted) action
through the comment like methods, else 400. -/
def toggleCommentLike (s : Store) (commentId : String) (action : Option String) :
    LikeEndpointResponse × Store :=
  let act := action.getD "increment"
  match Comment.findById s commentId with
  | none => (⟨404, false, "Comentario no encontrado", none⟩, s)
  | some comment =>
      if !comment.isApproved then
        (⟨403, false, "No se puede dar like a un comentario no aprobado", none⟩, s)
      else if act = "increment" then
        (⟨200, true, "Like agregado exitosamente", some (comment.likesCount + 1)⟩,
          Comment.incrementLikesStore s comment)
      else if act = "decrement" then
        (⟨200, true, "Like removido exitosamente",
          some (if comment.likesCount > 0 then comment.likesCount - 1 else comment.likesCount)⟩,
          Comment.decrementLikesStore s comment)
      else
        (⟨400, false, "Acción inválida. Use \"increment\" o \"decrement\"", none⟩, s)

/-- Request body of `POST /api/articles/:slug/comments`; a JS-absent
or empty field is `none` respectively the empty string. -/
structure AddCommentRequest where
  content : String
  parentCommentId : Option String
  author : Option String
  email : Option String
  deriving Repr, DecidableEq

/-- Mongoose validators of `commentSchema` that apply to the document
built by `addComment` (content trimmed, 10 to 1000 characters; author
and email demanded above only when `userId` is absent, which the
controller enforces first). -/
def commentContentValid (content : String) : Bool :=
  content.length ≥ 10 && content.length ≤ 1000

/-- Controller `commentController.addComment` for
`POST /api/articles/:slug/comments` (src/controllers/
commentController.js lines 281-393).  `emailOk` stands for the email
regex test; `newId` is the ObjectId Mongoose mints for the new
document.  A reply whose parent comment is not found with
`{ _id, articleId: article._id, isApproved: true }` is refused with
404 before anything is written. -/
def addComment (emailOk : String → Bool) (s : Store) (slug : String)
    (req : AddCommentRequest) (reqUser : Option UserDoc) (newId : String) :
    SimpleResponse × Store :=
  if req.content = "" then
    (⟨400, false, "El contenido del comentario es obligatorio"⟩, s)
  else
    match Article.findBySlugPublished s slug with
    | none => (⟨404, false, "Artículo no encontrado"⟩, s)
    | some article =>
        let parentOk :=
          match req.parentCommentId with
          | none => true
          | some pid =>
              (s.comments.find? (fun c =>
                c.id == pid && c.articleId == article.id && c.isApproved)).isSome
        if !parentOk then
          (⟨404, false, "Comentario padre no encontrado"⟩, s)
        else
          match reqUser with
          | some u =>
              let doc : CommentDoc :=
                ⟨newId, article.id, some u.id, u.name, u.email, jsTrim req.content,
                  req.parentCommentId, true, 0⟩
              if commentContentValid doc.content then
                (⟨201, true, "Comentario agregado exitosamente"⟩, Comment.saveNew s doc)
              else
                (⟨400, false, "Error de validación"⟩, s)
          | none =>
              let author := req.author.getD ""
              let email := req.email.getD ""
              if author = "" || email = "" then
                (⟨400, false, "Para comentarios anónimos, author y email son obligatorios"⟩, s)
              else if !emailOk email then
                (⟨400, false, "Formato de email inválido"⟩, s)
              else
                let doc : CommentDoc :=
                  ⟨newId, article.id, none, jsTrim author, jsTrim (jsToLowerCase email),
                    jsTrim req.content, req.parentCommentId, true, 0⟩
                if commentContentValid doc.content then
                  (⟨201, true, "Comentario agregado exitosamente"⟩, Comment.saveNew s doc)
                else
                  (⟨400, false, "Error de validación"⟩, s)

end CommentController

namespace AuthController

/-- JSON envelope of `POST /api/auth/login`; `error` is the secondary
detail string the controller attaches (empty on success). -/
structure LoginResponse where
  status : Nat
  success : Bool
  message : String
  error : String
  deriving Repr, DecidableEq

/-- Static `userSchema.statics.findByEmail`:
`findOne({ email: email.toLowerCase() })`. -/
def findByEmail (users : List UserDoc) (email : String) : Option UserDoc :=
  users.find? (fun u => u.email == jsToLowerCase email)

/-- Controller `authController.login` (src/controllers/
authController.js lines 220-290), after express-validator input checks
pass.  `compare` stands for `bcrypt.compare(candidate, storedHash)`.
Both the unknown-email and the wrong-password branches answer 401 with
the same undifferentiated message; a disabled account answers 401 with
a distinct message before the password is checked. -/
def login (compare : String → String → Bool) (users : List UserDoc)
    (email password : String) : LoginResponse :=
  match findByEmail users email with
  | none => ⟨401, false, "Credenciales inválidas", "Email o contraseña incorrectos"⟩
  | some user =>
      if !user.isActive then
        ⟨401, false, "Cuenta desactivada",
          "Tu cuenta ha sido desactivada. Contacta al administrador."⟩
      else if !(compare password user.password) then
        ⟨401, false, "Credenciales inválidas", "Email o contraseña incorrectos"⟩
      else
        ⟨200, true, "Login exitoso", ""⟩

end AuthController

/-! ## Derived scenario models -/

/-- Two concurrent `commentSchema.methods.incrementLikes` calls that
both fetched the same snapshot `stored`: each runs
`this.likesCount += 1; this.save()`, the second save overwriting the
the write of the first with its own cached value. -/
def twoConcurrentCommentIncrements (stored : Int) : Int :=
  let mem1 := stored
  let mem2 := stored
  let s1 := (Comment.incrementLikesMem stored mem1).1
  (Comment.incrementLikesMem s1 mem2).1

/-- One anonymous like-endpoint request: `increment` or `decrement`. -/
inductive AnonLikeOp where
  | inc
  | dec
  deriving Repr, DecidableEq

/-- One sequential anonymous like request against an article: the
handler fetches the document fresh (in-memory copy = stored value) and
runs the corresponding `articleSchema` method. -/
def anonArticleStep (n : Int) : AnonLikeOp → Int
  | AnonLikeOp.inc => (Article.incrementLikesMem n n).1
  | AnonLikeOp.dec => (Article.decrementLikesMem n n).1

/-- One sequential anonymous like request against a comment, likewise
with a fresh fetch. -/
def anonCommentStep (n : Int) : AnonLikeOp → Int
  | AnonLikeOp.inc => (Comment.incrementLikesMem n n).1
  | AnonLikeOp.dec => (Comment.decrementLikesMem n n).1

/-- Stored article `likesCount` after a sequence of anonymous like
requests, served one after the other. -/
def articleAnonLikeFold (ops : List AnonLikeOp) (n : Int) : Int :=
  ops.foldl anonArticleStep n

/-- Stored comment `likesCount` after a sequence of anonymous like
requests, served one after the other. -/
def commentAnonLikeFold (ops : List AnonLikeOp) (n : Int) : Int :=
  ops.foldl anonCommentStep n

/-! ## Concrete fixtures for the witnesses -/

/-- Fixture: an active registered user. -/
def demoUser : UserDoc := ⟨"u1", "Ana", "ana@x.com", "hash-ana", true⟩

/-- Fixture: a soft-disabled user (`isActive = false`). -/
def demoInactiveUser : UserDoc := ⟨"u2", "Beto", "beto@x.com", "hash-beto", false⟩

/-- Fixture: a published article. -/
def demoArticle : ArticleDoc := ⟨"a1", "hola-mundo", "Hola Mundo", true, 3, 7, 1⟩

/-- Fixture: an approved top-level comment on `demoArticle`. -/
def demoComment : CommentDoc :=
  ⟨"c1", "a1", none, "Ana", "ana@x.com", "un comentario bastante largo", none, true, 2⟩

/-- Fixture: an approved comment that belongs to a different article. -/
def demoOtherArticleComment : CommentDoc :=
  ⟨"p1", "a2", none, "Beto", "beto@x.com", "comentario de otro articulo", none, true, 0⟩

/-- Fixture: a fresh comment about to be created on `demoArticle`. -/
def demoComment2 : CommentDoc :=
  ⟨"c2", "a1", some "u1", "Ana", "ana@x.com", "otro comentario bastante largo", none, true, 0⟩

/-- Fixture store combining the documents above with one ledger row. -/
def demoStore : Store :=
  ⟨[demoArticle], [demoComment, demoOtherArticleComment],
    [demoUser, demoInactiveUser], [("u1", "a1")]⟩

/-- Fixture stand-in for `bcrypt.compare`: the candidate matches the
stored hash exactly when the hash equals `hash-` followed by it. -/
def demoCompare (candidate stored : String) : Bool :=
  ("hash-" ++ candidate) == stored

/-! ## Helper lemmas -/

/-- Updating (in place) exactly the elements selected by `p`, with an
update that keeps them selected, commutes with `find?`. -/
theorem find?_map_ite {α : Type} (l : List α) (p : α → Bool) (f : α → α)
    (hf : ∀ a, p a = true → p (f a) = true) :
    (l.map (fun a => if p a then f a else a)).find? p = (l.find? p).map f := by
  induction l with
  | nil => rfl
  | cons b t ih =>
    by_cases hb : p b = true
    · simp [List.find?_cons_of_pos, hb, hf b hb]
    · simp only [List.map_cons, if_neg hb]
      rw [List.find?_cons_of_neg _ (by simp [hb]),
        List.find?_cons_of_neg _ (by simp [hb]), ih]

/-- The recount hook leaves the comment collection untouched. -/
theorem postWriteHook_comments (s : Store) (aid : String) :
    (Comment.postWriteHook s aid).comments = s.comments := rfl

/-- After the recount hook runs, every stored article with the hooked
id carries exactly the approved-comment count. -/
theorem commentsCount_after_hook (s : Store) (aid : String) :
    ∀ a ∈ (Comment.postWriteHook s aid).articles, a.id = aid →
      a.commentsCount = Comment.countApprovedFor (Comment.postWriteHook s aid).comments aid := by
  intro a ha hid
  rw [postWriteHook_comments]
  simp only [Comment.postWriteHook, Article.updateById, List.mem_map] at ha
  obtain ⟨b, hb, hba⟩ := ha
  by_cases h : b.id = aid
  · rw [if_pos (by simp [h])] at hba
    rw [← hba]
  · rw [if_neg (by simp [h])] at hba
    rw [← hba] at hid
    exact absurd hid h

/-! ## Claims -/

/-- C1: after any comment-affecting write completes (a comment is
created, approved, disapproved, or deleted), and before the response is
returned, the stored `Article.commentsCount` of the affected article
equals the exact count of `Comment` rows with that `articleId` and
`isApproved = true`. -/
theorem claim_C1 (s : Store) (w : CommentWrite) (s2 : Store) (aid : String)
    (h : applyCommentWrite s w = some (s2, aid)) :
    ∀ a ∈ s2.articles, a.id = aid →
      a.commentsCount = Comment.countApprovedFor s2.comments aid := by
  cases w with
  | create c =>
    simp only [applyCommentWrite, Option.some_inj, Prod.mk.injEq] at h
    obtain ⟨h1, h2⟩ := h
    subst h1; subst h2
    exact commentsCount_after_hook _ _
  | approve cid =>
    cases hf : Comment.findById s cid with
    | none => simp [applyCommentWrite, hf] at h
    | some doc =>
      simp only [applyCommentWrite, hf, Option.map_some', Option.some_inj,
        Prod.mk.injEq] at h
      obtain ⟨h1, h2⟩ := h
      subst h1; subst h2
      exact commentsCount_after_hook _ _
  | disapprove cid =>
    cases hf : Comment.findById s cid with
    | none => simp [applyCommentWrite, hf] at h
    | some doc =>
      simp only [applyCommentWrite, hf, Option.map_some', Option.some_inj,
        Prod.mk.injEq] at h
      obtain ⟨h1, h2⟩ := h
      subst h1; subst h2
      exact commentsCount_after_hook _ _
  | delete cid =>
    cases hf : s.comments.find? (fun c => c.id == cid) with
    | none => simp [applyCommentWrite, Comment.findByIdAndDelete, hf] at h
    | some doc =>
      simp only [applyCommentWrite, Comment.findByIdAndDelete, hf, Option.some_inj,
        Prod.mk.injEq] at h
      obtain ⟨h1, h2⟩ := h
      subst h1; subst h2
      exact commentsCount_after_hook _ _

/-- Witness for C1: creating a comment on the fixture store leaves the
affected article holding the exact approved count. -/
theorem claim_C1_witness :
    ({ demoArticle with commentsCount := 2 } : ArticleDoc).commentsCount =
      Comment.countApprovedFor
        (Comment.saveNew demoStore demoComment2).comments "a1" := by
  have h := claim_C1 demoStore (CommentWrite.create demoComment2)
    (Comment.saveNew demoStore demoComment2) "a1" rfl
  exact h { demoArticle with commentsCount := 2 } (by decide) rfl

/-- Counterexample for C2: the claim says every like-counter mutation
is a single atomic add of ±1 against the STORED document; but the
comment method writes back its cached in-memory value, so with stored
counter 5 and cached copy 0 the increment stores 1, not 6, and two
concurrent increments from the same snapshot 0 net a single like. -/
theorem claim_C2_counterexample :
    (Comment.incrementLikesMem 5 0).1 = 1 ∧ ((5 : Int) + 1 ≠ 1) ∧
      twoConcurrentCommentIncrements 0 = 1 ∧ ((0 : Int) + 2 ≠ 1) := by
  refine ⟨rfl, by decide, rfl, by decide⟩

/-- C2 amended: only the ARTICLE like-counter mutations are issued as
single atomic adds against the stored document (the ± amount of the
decrement being decided from the cached copy); the COMMENT like-counter
mutations are read-modify-write saves of the cached in-memory value,
whose written result ignores the stored counter entirely, so
concurrent comment like updates can be lost (two concurrent increments
from the same snapshot store one like). -/
theorem claim_C2 (stored mem : Int) :
    (Article.incrementLikesMem stored mem).1 = stored + 1 ∧
      (Article.decrementLikesMem stored mem).1 =
        stored + (if mem > 0 then -1 else 0) ∧
      (Comment.incrementLikesMem stored mem).1 = mem + 1 ∧
      (Comment.decrementLikesMem stored mem).1 =
        (if mem > 0 then mem - 1 else mem) ∧
      twoConcurrentCommentIncrements stored = stored + 1 := by
  refine ⟨rfl, rfl, rfl, rfl, rfl⟩

/-- Each sequential anonymous article like request keeps the stored
counter non-negative. -/
theorem anonArticleStep_nonneg (n : Int) (op : AnonLikeOp) (h : 0 ≤ n) :
    0 ≤ anonArticleStep n op := by
  cases op with
  | inc =>
    simp only [anonArticleStep, Article.incrementLikesMem]
    omega
  | dec =>
    simp only [anonArticleStep, Article.decrementLikesMem]
    split <;> omega

/-- Each sequential anonymous comment like request keeps the stored
counter non-negative. -/
theorem anonCommentStep_nonneg (n : Int) (op : AnonLikeOp) (h : 0 ≤ n) :
    0 ≤ anonCommentStep n op := by
  cases op with
  | inc =>
    simp only [anonCommentStep, Comment.incrementLikesMem]
    omega
  | dec =>
    simp only [anonCommentStep, Comment.decrementLikesMem]
    split <;> omega

/-- Non-negativity propagates through any sequence of anonymous
article like requests. -/
theorem articleAnonLikeFold_nonneg (ops : List AnonLikeOp) (n : Int) (h : 0 ≤ n) :
    0 ≤ articleAnonLikeFold ops n := by
  induction ops generalizing n with
  | nil => exact h
  | cons op rest ih => exact ih _ (anonArticleStep_nonneg n op h)

/-- Non-negativity propagates through any sequence of anonymous
comment like requests. -/
theorem commentAnonLikeFold_nonneg (ops : List AnonLikeOp) (n : Int) (h : 0 ≤ n) :
    0 ≤ commentAnonLikeFold ops n := by
  induction ops generalizing n with
  | nil => exact h
  | cons op rest ih => exact ih _ (anonCommentStep_nonneg n op h)

/-- C3: for a target (article or comment) whose `likesCount` starts at
N ≥ 0, the anonymous toggle with `increment` followed by `decrement`
returns the counter to N; a `decrement` at 0 leaves 0; and the counter
is never negative after any sequence of these requests. -/
theorem claim_C3 (n : Int) (h : 0 ≤ n) :
    articleAnonLikeFold [AnonLikeOp.inc, AnonLikeOp.dec] n = n ∧
      commentAnonLikeFold [AnonLikeOp.inc, AnonLikeOp.dec] n = n ∧
      articleAnonLikeFold [AnonLikeOp.dec] 0 = 0 ∧
      commentAnonLikeFold [AnonLikeOp.dec] 0 = 0 ∧
      ∀ ops : List AnonLikeOp,
        0 ≤ articleAnonLikeFold ops n ∧ 0 ≤ commentAnonLikeFold ops n := by
  refine ⟨?_, ?_, by decide, by decide, fun ops =>
    ⟨articleAnonLikeFold_nonneg ops n h, commentAnonLikeFold_nonneg ops n h⟩⟩
  · simp only [articleAnonLikeFold, List.foldl, anonArticleStep,
      Article.incrementLikesMem, Article.decrementLikesMem]
    split <;> omega
  · simp only [commentAnonLikeFold, List.foldl, anonCommentStep,
      Comment.incrementLikesMem, Comment.decrementLikesMem]
    split <;> omega

/-- Witness for C3 at N = 2 and the request sequence
decrement-decrement-decrement. -/
theorem claim_C3_witness :
    articleAnonLikeFold [AnonLikeOp.inc, AnonLikeOp.dec] 2 = 2 ∧
      commentAnonLikeFold [AnonLikeOp.inc, AnonLikeOp.dec] 2 = 2 ∧
      0 ≤ articleAnonLikeFold [AnonLikeOp.dec, AnonLikeOp.dec, AnonLikeOp.dec] 2 ∧
      0 ≤ commentAnonLikeFold [AnonLikeOp.dec, AnonLikeOp.dec, AnonLikeOp.dec] 2 := by
  have h := claim_C3 2 (by decide)
  exact ⟨h.1, h.2.1,
    (h.2.2.2.2 [AnonLikeOp.dec, AnonLikeOp.dec, AnonLikeOp.dec]).1,
    (h.2.2.2.2 [AnonLikeOp.dec, AnonLikeOp.dec, AnonLikeOp.dec]).2⟩

/-- C4: the identity-bound toggle deletes the row and reports
`liked:false` when a `Like` for the pair exists, creates one and
reports `liked:true` when it does not; toggling twice restores the
original liked state; and starting from a duplicate-free ledger the
ledger never holds two rows for one pair. -/
theorem claim_C4 (likes : List (String × String)) (u a : String)
    (hnd : likes.Nodup) :
    ((u, a) ∈ likes → (Like.toggleLike likes u a).1.liked = false ∧
        (u, a) ∉ (Like.toggleLike likes u a).2) ∧
      ((u, a) ∉ likes → (Like.toggleLike likes u a).1.liked = true ∧
        (u, a) ∈ (Like.toggleLike likes u a).2) ∧
      (Like.toggleLike likes u a).2.Nodup ∧
      ((u, a) ∈ (Like.toggleLike (Like.toggleLike likes u a).2 u a).2 ↔
        (u, a) ∈ likes) := by
  by_cases h : (u, a) ∈ likes
  · have hno : (u, a) ∉ likes.erase (u, a) := fun hc =>
      ((List.Nodup.mem_erase_iff hnd).1 hc).1 rfl
    refine ⟨fun _ => ⟨?_, ?_⟩, fun hc => absurd h hc, ?_, ?_⟩
    · simp [Like.toggleLike, if_pos h]
    · simpa [Like.toggleLike, if_pos h] using hno
    · simpa [Like.toggleLike, if_pos h] using hnd.erase _
    · simp [Like.toggleLike, if_pos h, if_neg hno, h, hno]
  · have hmem : (u, a) ∈ (u, a) :: likes := List.mem_cons_self _ _
    refine ⟨fun hc => absurd hc h, fun _ => ⟨?_, ?_⟩, ?_, ?_⟩
    · simp [Like.toggleLike, if_neg h]
    · simp [Like.toggleLike, if_neg h]
    · simpa [Like.toggleLike, if_neg h] using List.nodup_cons.2 ⟨h, hnd⟩
    · simp [Like.toggleLike, if_neg h, if_pos hmem, List.erase_cons_head, h]

/-- Witness for C4 on a two-row duplicate-free ledger. -/
theorem claim_C4_witness :
    ((Like.toggleLike [("u1", "a1"), ("u2", "a1")] "u1" "a1").1.liked = false ∧
      ("u1", "a1") ∉ (Like.toggleLike [("u1", "a1"), ("u2", "a1")] "u1" "a1").2) ∧
      (Like.toggleLike [("u1", "a1"), ("u2", "a1")] "u1" "a1").2.Nodup ∧
      (("u1", "a1") ∈
          (Like.toggleLike
            (Like.toggleLike [("u1", "a1"), ("u2", "a1")] "u1" "a1").2 "u1" "a1").2 ↔
        ("u1", "a1") ∈ [("u1", "a1"), ("u2", "a1")]) := by
  have h := claim_C4 [("u1", "a1"), ("u2", "a1")] "u1" "a1" (by decide)
  exact ⟨h.1 (by decide), h.2.2.1, h.2.2.2⟩

/-- Counterexample for C5: the claim says BOTH identity-bound like
creation paths convert a duplicate-key error into a benign no-op
success; but when a concurrent writer inserts the pair between
the existence check of `toggleLike` and its `create`, the duplicate-key
error propagates out of `toggleLike` to the caller. -/
theorem claim_C5_counterexample :
    Like.toggleLikeRaced ⟨[], [("u1", "a1")]⟩ "u1" "a1" =
      Except.error MongoError.duplicateKey := by
  rfl

/-- C5 amended: only the `addLike` path converts the duplicate-key
error of the store on inserting the `Like` row into a benign no-op
success; the `toggleLike` path has no such handler and surfaces the
duplicate-key error to its caller. -/
theorem claim_C5 (env : Like.LikeRace) (u a : String)
    (h1 : (u, a) ∉ env.checkLikes) (h2 : (u, a) ∈ env.createLikes) :
    Like.addLike env u a =
        Except.ok ⟨false, "Ya diste like a este artículo"⟩ ∧
      Like.toggleLikeRaced env u a =
        Except.error MongoError.duplicateKey := by
  constructor
  · simp [Like.addLike, Like.createRow, if_neg h1, if_pos h2]
  · simp [Like.toggleLikeRaced, Like.createRow, if_neg h1, if_pos h2, Except.map]

/-- Witness for C5 with the pair absent at check time and inserted by
the concurrent writer before the create executes. -/
theorem claim_C5_witness :
    Like.addLike ⟨[], [("u2", "a2")]⟩ "u2" "a2" =
        Except.ok ⟨false, "Ya diste like a este artículo"⟩ ∧
      Like.toggleLikeRaced ⟨[], [("u2", "a2")]⟩ "u2" "a2" =
        Except.error MongoError.duplicateKey :=
  claim_C5 ⟨[], [("u2", "a2")]⟩ "u2" "a2" (by decide) (by decide)

/-- C6: on both anonymous like endpoints, a supplied `action` other
than the exact literals `increment` and `decrement` fails with the
invalid-action 400 response and leaves the store (hence the stored
`likesCount` of the target) unchanged. -/
theorem claim_C6 (s : Store) (slug cid v : String) (art : ArticleDoc)
    (c : CommentDoc)
    (hObj : isObjectIdString (jsTrim slug) = false)
    (hArt : Article.findBySlugPublished s (jsTrim slug) = some art)
    (hCom : Comment.findById s cid = some c)
    (hApp : c.isApproved = true)
    (hv1 : v ≠ "increment") (hv2 : v ≠ "decrement") :
    (ArticleController.toggleLike s slug (some v)).1.status = 400 ∧
      (ArticleController.toggleLike s slug (some v)).2 = s ∧
      (CommentController.toggleCommentLike s cid (some v)).1.status = 400 ∧
      (CommentController.toggleCommentLike s cid (some v)).2 = s := by
  have hA : ArticleController.toggleLike s slug (some v) =
      (⟨400, false, "Acción inválida. Use \"increment\" o \"decrement\"", none⟩, s) := by
    simp [ArticleController.toggleLike, ArticleController.applyLikeAction,
      hObj, hArt, hv1, hv2]
  have hC : CommentController.toggleCommentLike s cid (some v) =
      (⟨400, false, "Acción inválida. Use \"increment\" o \"decrement\"", none⟩, s) := by
    simp [CommentController.toggleCommentLike, hCom, hApp, hv1, hv2]
  rw [hA, hC]
  exact ⟨rfl, rfl, rfl, rfl⟩

/-- Witness for C6 with `action = "boost"` on the fixture store. -/
theorem claim_C6_witness :
    (ArticleController.toggleLike demoStore "hola-mundo" (some "boost")).1.status = 400 ∧
      (ArticleController.toggleLike demoStore "hola-mundo" (some "boost")).2 = demoStore ∧
      (CommentController.toggleCommentLike demoStore "c1" (some "boost")).1.status = 400 ∧
      (CommentController.toggleCommentLike demoStore "c1" (some "boost")).2 = demoStore :=
  claim_C6 demoStore "hola-mundo" "c1" "boost" demoArticle demoComment
    (by decide) (by decide) (by decide) (by decide) (by decide) (by decide)

/-- C7: a create-comment request carrying a `parentCommentId` is
rejected with 404, and the store is left unchanged (no comment is
created), whenever no stored comment with that id is approved and
attached to the article resolved from the request slug — covering a
missing parent, a disapproved parent, and a parent from a different
article. -/
theorem claim_C7 (emailOk : String → Bool) (s : Store) (slug : String)
    (req : CommentController.AddCommentRequest) (reqUser : Option UserDoc)
    (newId : String) (art : ArticleDoc) (pid : String)
    (hc : req.content ≠ "")
    (hArt : Article.findBySlugPublished s slug = some art)
    (hpid : req.parentCommentId = some pid)
    (hbad : ∀ c ∈ s.comments, c.id = pid →
      c.articleId ≠ art.id ∨ c.isApproved = false) :
    CommentController.addComment emailOk s slug req reqUser newId =
      (⟨404, false, "Comentario padre no encontrado"⟩, s) := by
  have hnone : s.comments.find? (fun c =>
      c.id == pid && c.articleId == art.id && c.isApproved) = none := by
    rw [List.find?_eq_none]
    intro c hmem
    simp only [Bool.and_eq_true, beq_iff_eq, not_and]
    intro hid
    rcases hbad c hmem hid.1 with hne | hfalse
    · exact absurd hid.2 hne
    · simp [hfalse]
  simp [CommentController.addComment, hc, hArt, hpid, hnone]

/-- Witness for C7: a reply to `demoOtherArticleComment` (approved, but
attached to another article) on the fixture store is refused with 404
and creates nothing. -/
theorem claim_C7_witness :
    CommentController.addComment (fun e => true) demoStore "hola-mundo"
        ⟨"una respuesta bastante larga", some "p1", some "Ana", some "ana@x.com"⟩
        none "c9" =
      (⟨404, false, "Comentario padre no encontrado"⟩, demoStore) :=
  claim_C7 (fun e => true) demoStore "hola-mundo"
    ⟨"una respuesta bastante larga", some "p1", some "Ana", some "ana@x.com"⟩
    none "c9" demoArticle "p1" (by decide) (by decide) rfl (by decide)

/-- C8: a login with an email matching no account and a login against
an existing ACTIVE account with a wrong password produce the exact same
response (same 401 status, same message, same detail — no
account-existence leakage), while a login against a disabled account
fails with 401 and a distinct message. -/
theorem claim_C8 (compare : String → String → Bool) (users : List UserDoc)
    (e1 p1 e2 p2 e3 p3 : String) (u v : UserDoc)
    (h1 : AuthController.findByEmail users e1 = none)
    (h2 : AuthController.findByEmail users e2 = some u)
    (h2a : u.isActive = true)
    (h2b : compare p2 u.password = false)
    (h3 : AuthController.findByEmail users e3 = some v)
    (h3a : v.isActive = false) :
    AuthController.login compare users e1 p1 =
        AuthController.login compare users e2 p2 ∧
      (AuthController.login compare users e1 p1).status = 401 ∧
      (AuthController.login compare users e1 p1).message = "Credenciales inválidas" ∧
      (AuthController.login compare users e3 p3).status = 401 ∧
      (AuthController.login compare users e3 p3).message = "Cuenta desactivada" ∧
      (AuthController.login compare users e3 p3).message ≠
        (AuthController.login compare users e1 p1).message := by
  have r1 : AuthController.login compare users e1 p1 =
      ⟨401, false, "Credenciales inválidas", "Email o contraseña incorrectos"⟩ := by
    simp [AuthController.login, h1]
  have r2 : AuthController.login compare users e2 p2 =
      ⟨401, false, "Credenciales inválidas", "Email o contraseña incorrectos"⟩ := by
    simp [AuthController.login, h2, h2a, h2b]
  have r3 : AuthController.login compare users e3 p3 =
      ⟨401, false, "Cuenta desactivada",
        "Tu cuenta ha sido desactivada. Contacta al administrador."⟩ := by
    simp [AuthController.login, h3, h3a]
  rw [r1, r2, r3]
  refine ⟨rfl, rfl, rfl, rfl, rfl, by decide⟩

/-- Witness for C8 on the fixture users: unknown email
`nadie@x.com`, wrong password for active `ana@x.com`, any password for
disabled `beto@x.com`. -/
theorem claim_C8_witness :
    AuthController.login demoCompare [demoUser, demoInactiveUser] "nadie@x.com" "pw" =
        AuthController.login demoCompare [demoUser, demoInactiveUser] "ana@x.com" "mala" ∧
      (AuthController.login demoCompare [demoUser, demoInactiveUser] "nadie@x.com" "pw").status = 401 ∧
      (AuthController.login demoCompare [demoUser, demoInactiveUser] "nadie@x.com" "pw").message = "Credenciales inválidas" ∧
      (AuthController.login demoCompare [demoUser, demoInactiveUser] "beto@x.com" "beto").status = 401 ∧
      (AuthController.login demoCompare [demoUser, demoInactiveUser] "beto@x.com" "beto").message = "Cuenta desactivada" ∧
      (AuthController.login demoCompare [demoUser, demoInactiveUser] "beto@x.com" "beto").message ≠
        (AuthController.login demoCompare [demoUser, demoInactiveUser] "nadie@x.com" "pw").message :=
  claim_C8 demoCompare [demoUser, demoInactiveUser]
    "nadie@x.com" "pw" "ana@x.com" "mala" "beto@x.com" "beto"
    demoUser demoInactiveUser
    (by decide) (by decide) rfl (by decide) (by decide) rfl

/-- Reading back an article by id after `findByIdAndUpdate` on that id
yields the updated document. -/
theorem findById_after_update (s : Store) (aid : String)
    (f : ArticleDoc → ArticleDoc) (hf : ∀ a : ArticleDoc, (f a).id = a.id) :
    (Article.updateById s.articles aid f).find? (fun a => a.id == aid) =
      (Article.findById s aid).map f := by
  rw [Article.findById]
  exact find?_map_ite s.articles (fun a => a.id == aid) f
    (fun a ha => by simpa [hf] using ha)

/-- Reading back a comment by id after `save()` of an in-memory copy
with that id yields exactly that copy. -/
theorem findById_after_saveExisting (s : Store) (c2 : CommentDoc) :
    Comment.findById (Comment.saveExisting s c2) c2.id =
      (Comment.findById s c2.id).map (fun _ => c2) := by
  rw [Comment.findById, Comment.findById]
  show (s.comments.map (fun o => if o.id == c2.id then c2 else o)).find?
      (fun x => x.id == c2.id) = _
  exact find?_map_ite s.comments (fun o => o.id == c2.id) (fun _ => c2)
    (fun a ha => by simp)

/-- C9: every `GET` of the detail of a published article bumps the
stored `viewsCount` by exactly 1 as a side effect of the read, and the
`userLiked` boolean of the response is computed from the `Like` ledger only
for an authenticated caller and is `false` otherwise. -/
theorem claim_C9 (s : Store) (slug : String) (art : ArticleDoc) (u : UserDoc)
    (hArt : Article.findBySlugPublished s slug = some art)
    (hById : Article.findById s art.id = some art) :
    (ArticleController.getArticleBySlug s slug none).1.status = 200 ∧
      Article.findById (ArticleController.getArticleBySlug s slug none).2 art.id =
        some { art with viewsCount := art.viewsCount + 1 } ∧
      (ArticleController.getArticleBySlug s slug none).1.viewsCount =
        some (art.viewsCount + 1) ∧
      (ArticleController.getArticleBySlug s slug none).1.userLiked = some false ∧
      (ArticleController.getArticleBySlug s slug (some u)).1.userLiked =
        some (Like.userLikedArticle s.likes u.id art.id) ∧
      Article.findById (ArticleController.getArticleBySlug s slug (some u)).2 art.id =
        some { art with viewsCount := art.viewsCount + 1 } := by
  have hupd : Article.findById
      { s with articles :=
        (Article.updateById s.articles art.id
          (fun a => { a with viewsCount := a.viewsCount + 1 })) } art.id =
      some { art with viewsCount := art.viewsCount + 1 } := by
    rw [Article.findById]
    show (Article.updateById s.articles art.id
      (fun a => { a with viewsCount := a.viewsCount + 1 })).find?
        (fun a => a.id == art.id) = _
    rw [findById_after_update s art.id
      (fun a => { a with viewsCount := a.viewsCount + 1 }) (fun a => rfl), hById]
    rfl
  simp [ArticleController.getArticleBySlug, hArt, hupd]

/-- Witness for C9 on the fixture store, both unauthenticated and as
the fixture user (who has a ledger row for the article). -/
theorem claim_C9_witness :
    (ArticleController.getArticleBySlug demoStore "hola-mundo" none).1.status = 200 ∧
      Article.findById
          (ArticleController.getArticleBySlug demoStore "hola-mundo" none).2 "a1" =
        some { demoArticle with viewsCount := 8 } ∧
      (ArticleController.getArticleBySlug demoStore "hola-mundo" none).1.viewsCount =
        some 8 ∧
      (ArticleController.getArticleBySlug demoStore "hola-mundo" none).1.userLiked =
        some false ∧
      (ArticleController.getArticleBySlug demoStore "hola-mundo" (some demoUser)).1.userLiked =
        some (Like.userLikedArticle demoStore.likes "u1" "a1") :=
  have h := claim_C9 demoStore "hola-mundo" demoArticle demoUser
    (by decide) (by decide)
  ⟨h.1, h.2.1, h.2.2.1, h.2.2.2.1, h.2.2.2.2.1⟩

/-- C10: on both anonymous like endpoints a request body with no
`action` field does not fail validation: the destructuring default
makes it `"increment"`, the stored `likesCount` of the target is bumped by
1, and the call reports success with the incremented count. -/
theorem claim_C10 (s : Store) (slug cid : String) (art : ArticleDoc)
    (c : CommentDoc)
    (hObj : isObjectIdString (jsTrim slug) = false)
    (hArt : Article.findBySlugPublished s (jsTrim slug) = some art)
    (hById : Article.findById s art.id = some art)
    (hCom : Comment.findById s cid = some c)
    (hApp : c.isApproved = true) :
    (ArticleController.toggleLike s slug none).1.status = 200 ∧
      (ArticleController.toggleLike s slug none).1.success = true ∧
      (ArticleController.toggleLike s slug none).1.likesCount =
        some (art.likesCount + 1) ∧
      Article.findById (ArticleController.toggleLike s slug none).2 art.id =
        some { art with likesCount := art.likesCount + 1 } ∧
      (CommentController.toggleCommentLike s cid none).1.status = 200 ∧
      (CommentController.toggleCommentLike s cid none).1.success = true ∧
      (CommentController.toggleCommentLike s cid none).1.likesCount =
        some (c.likesCount + 1) ∧
      Comment.findById (CommentController.toggleCommentLike s cid none).2 cid =
        some { c with likesCount := c.likesCount + 1 } := by
  have hupd : Article.findById
      { s with articles :=
        (Article.updateById s.articles art.id
          (fun a => { a with likesCount := a.likesCount + 1 })) } art.id =
      some { art with likesCount := art.likesCount + 1 } := by
    rw [Article.findById]
    show (Article.updateById s.articles art.id
      (fun a => { a with likesCount := a.likesCount + 1 })).find?
        (fun a => a.id == art.id) = _
    rw [findById_after_update s art.id
      (fun a => { a with likesCount := a.likesCount + 1 }) (fun a => rfl), hById]
    rfl
  have hcid : c.id = cid := by
    have := List.find?_some hCom
    simpa using this
  subst hcid
  have hcomup : Comment.findById
      (Comment.incrementLikesStore s c) c.id =
      some { c with likesCount := c.likesCount + 1 } := by
    have h2 := findById_after_saveExisting s { c with likesCount := c.likesCount + 1 }
    simp only [Comment.incrementLikesStore]
    rw [show ({ c with likesCount := c.likesCount + 1 } : CommentDoc).id = c.id from rfl] at h2
    rw [h2, hCom]
    rfl
  refine ⟨?_, ?_, ?_, ?_, ?_, ?_, ?_, ?_⟩ <;>
    simp [ArticleController.toggleLike, ArticleController.applyLikeAction,
      CommentController.toggleCommentLike, hObj, hArt, hCom, hApp, hupd, hcomup]

/-- Witness for C10 on the fixture store: no `action` in the body
increments both the article counter and the comment counter. -/
theorem claim_C10_witness :
    (ArticleController.toggleLike demoStore "hola-mundo" none).1.status = 200 ∧
      (ArticleController.toggleLike demoStore "hola-mundo" none).1.likesCount =
        some 4 ∧
      Article.findById (ArticleController.toggleLike demoStore "hola-mundo" none).2 "a1" =
        some { demoArticle with likesCount := 4 } ∧
      (CommentController.toggleCommentLike demoStore "c1" none).1.status = 200 ∧
      (CommentController.toggleCommentLike demoStore "c1" none).1.likesCount =
        some 3 ∧
      Comment.findById (CommentController.toggleCommentLike demoStore "c1" none).2 "c1" =
        some { demoComment with likesCount := 3 } :=
  have h := claim_C10 demoStore "hola-mundo" "c1" demoArticle demoComment
    (by decide) (by decide) (by decide) (by decide) rfl
  ⟨h.1, h.2.2.1, h.2.2.2.1, h.2.2.2.2.1, h.2.2.2.2.2.2.1, h.2.2.2.2.2.2.2⟩
